import Mathlib

/-!
Shallow embedding of the UX/UI auditing tool:
the orchestrator / probe / scorer code in `src/testers/ux-ui-tester.ts`
and the evidence recorder (`ScreenshotAnalyzer`) in `screenshot-analyzer.ts`.

Modelling conventions:
* JS numbers that are always integers in the source (element counts,
  `Date.now()` differences) are `Nat`; JS numbers that may be fractional
  (scores, CSS pixel geometry, paint timings) are `Rat`; the floating-point
  WCAG luminance computation (which uses `Math.pow(_, 2.4)`) is modelled
  over the reals.
* `Math.round` is `jsRound` (floor of `x + 1/2`, JS round-half-up).
* The division `0/0` that JS evaluates to `NaN` is modelled as `none`
  of an `Option` result.
* Browser interactions (`page.evaluate`, `page.locator(...).count()`,
  navigation, screenshots) are the environment of a probe: each probe takes
  a record of the values its page interactions produce, where an
  interaction that is not guarded by a `try`/`catch` in the source is an
  `Except Unit` value (`.error ()` models the promise rejecting / throwing)
  and a best-effort interaction whose failure the source swallows locally
  is modelled by the value its `catch` branch produces.
* Wall-clock data (the `timestamp` field of a test result, `Date.now()`
  components of screenshot file names) is not modelled; screenshot file
  paths are environment-provided strings.
-/

namespace UXUI

/-- Status of a test result: the `'pass' | 'fail' | 'warning'` union. -/
inductive Status
  | pass
  | fail
  | warning
deriving DecidableEq, Repr

/-- Severity of a test result: the `'high' | 'medium' | 'low'` union. -/
inductive Severity
  | high
  | medium
  | low
deriving DecidableEq, Repr

/-- Axe impact levels: `'critical' | 'serious' | 'moderate' | 'minor'`. -/
inductive A11ySeverity
  | critical
  | serious
  | moderate
  | minor
deriving DecidableEq, Repr

/-- `ElementIssue` from `screenshot-analyzer.ts` (geometry already passed
through `Math.round` by `recordProblemArea`). -/
structure ElementIssue where
  selector : String
  x : ℤ
  y : ℤ
  width : ℤ
  height : ℤ
  description : String
  severity : Severity
  recommendation : String
  screenshotPath : Option String
deriving DecidableEq, Repr

/-- `ProblemArea` from `screenshot-analyzer.ts`. -/
structure ProblemArea where
  category : String
  test : String
  issues : List ElementIssue
  fullPageScreenshot : Option String
deriving DecidableEq, Repr

/-- `TestResult` from `ux-ui-tester.ts` (the spec's Finding).  The
`timestamp` field (wall clock) is not modelled. -/
structure TestResult where
  category : String
  test : String
  status : Status
  score : ℚ
  details : String
  severity : Severity
  elements : Option (List ElementIssue)
  recommendations : Option (List String)
deriving DecidableEq, Repr

/-- `LargestContentfulPaintEntry` (the captured LCP entry detail). -/
structure LCPEntry where
  startTime : ℚ
  renderTime : ℚ
  loadTime : ℚ
  size : Option ℕ
  url : Option String
  element : Option String
deriving DecidableEq, Repr

/-- `PerformanceMetrics` from `ux-ui-tester.ts`. -/
structure PerformanceMetrics where
  loadTime : ℕ
  domContentLoaded : ℚ
  firstPaint : ℚ
  firstContentfulPaint : ℚ
  largestContentfulPaint : ℚ
  largestContentfulPaintEntry : Option LCPEntry
  totalSize : ℕ
  requestCount : ℕ
deriving DecidableEq, Repr

/-- `AccessibilityIssue` from `ux-ui-tester.ts`. -/
structure AccessibilityIssue where
  type : String
  severity : A11ySeverity
  element : String
  description : String
  wcagLevel : String
deriving DecidableEq, Repr

/-- `ResponsiveTestResult` from `ux-ui-tester.ts`. -/
structure ResponsiveTestResult where
  device : String
  width : ℕ
  height : ℕ
  issues : List String
  screenshot : Option String
deriving DecidableEq, Repr

/-- The session-scoped mutable state of a `UXUITester` instance:
`this.results`, `this.performanceMetrics`, `this.accessibilityIssues`,
`this.responsiveResults`, and the `ScreenshotAnalyzer`'s
`this.problemAreas`.  `leakedContexts` counts browsing contexts opened by
`testResponsive` that were never closed (there is no `ctx.close()` on the
per-device error path). -/
structure SessionState where
  results : List TestResult
  performanceMetrics : PerformanceMetrics
  accessibilityIssues : List AccessibilityIssue
  responsiveResults : List ResponsiveTestResult
  problemAreas : List ProblemArea
  leakedContexts : ℕ
deriving DecidableEq, Repr

/-- The initial `PerformanceMetrics` assigned in the class field
initializer (all zeroes, no LCP entry). -/
def initialMetrics : PerformanceMetrics :=
  ⟨0, 0, 0, 0, 0, none, 0, 0⟩

/-- Fresh session state (all collections start empty). -/
def initialState : SessionState :=
  ⟨[], initialMetrics, [], [], [], 0⟩

/-- JS `Math.round`: floor of `x + 1/2` (half rounds up). -/
def jsRound (q : ℚ) : ℤ := ⌊q + 1 / 2⌋

/-- JS `Math.max` on rationals. -/
def jsMax (a b : ℚ) : ℚ := if a ≤ b then b else a

/-- JS `Math.min` on rationals. -/
def jsMin (a b : ℚ) : ℚ := if a ≤ b then a else b

/-- JS `Number.prototype.toFixed(1)` for the nonnegative values the tester
formats (rounds to one decimal, ties up). -/
def toFixed1 (q : ℚ) : String :=
  let n := (⌊q * 10 + 1 / 2⌋).toNat
  toString (n / 10) ++ "." ++ toString (n % 10)

/-- JS `Number.prototype.toFixed(2)` for the nonnegative values the tester
formats (rounds to two decimals, ties up). -/
def toFixed2 (q : ℚ) : String :=
  let n := (⌊q * 100 + 1 / 2⌋).toNat
  toString (n / 100) ++ "." ++ (if n % 100 < 10 then "0" else "") ++ toString (n % 100)

/-- Does the character list start with the pattern? -/
def charsStartWith : List Char → List Char → Bool
  | [], _ => true
  | _ :: _, [] => false
  | p :: ps, c :: cs => p == c && charsStartWith ps cs

/-- Does the pattern occur as a contiguous run of the character list? -/
def charsContain (pat : List Char) : List Char → Bool
  | [] => charsStartWith pat []
  | c :: rest => charsStartWith pat (c :: rest) || charsContain pat rest

/-- JS `String.prototype.includes`: substring containment. -/
def strContains (s pat : String) : Bool := charsContain pat.data s.data

/-- JS `String.prototype.toLowerCase` (character-wise lowering; adequate
for the ASCII keywords and device names compared here). -/
def strToLower (s : String) : String := ⟨s.data.map Char.toLower⟩

/-- JS `className.split(' ')[0]`: the class-attribute text up to the
first space. -/
def firstWord (s : String) : String := ⟨s.data.takeWhile (fun c => c != ' ')⟩

/-- `this.addResult(...)` builds one `TestResult` and pushes it; this is
the record it builds (sans timestamp). -/
def mkResult (category test : String) (status : Status) (score : ℚ)
    (details : String) (severity : Severity)
    (elements : Option (List ElementIssue))
    (recommendations : Option (List String)) : TestResult :=
  ⟨category, test, status, score, details, severity, elements, recommendations⟩

/-- Append one result to the session (the `this.results.push` in
`addResult`). -/
def addResult (st : SessionState) (r : TestResult) : SessionState :=
  { st with results := st.results ++ [r] }

-- ========================================
-- Result Aggregator / Scorer (generateReport, lines 1400-1403)
-- ========================================

/-- The overall-score computation of `generateReport`:
`totalScore = results.reduce((sum, r) => sum + r.score, 0)`,
`maxScore = results.length * 10`,
`overallScore = Math.round((totalScore / maxScore) * 100)`.
When `results` is empty the JS expression is `Math.round((0 / 0) * 100)`,
which is `NaN`; `NaN` is modelled as `none`. -/
def overallScore (results : List TestResult) : Option ℤ :=
  let totalScore : ℚ := (results.map (fun r => r.score)).sum
  let maxScore : ℚ := (results.length : ℚ) * 10
  if results.length = 0 then none
  else some (jsRound (totalScore / maxScore * 100))

-- ========================================
-- Evidence Recorder (ScreenshotAnalyzer)
-- ========================================

/-- `storeProblemArea(category, test, issue)`: append the issue to the
first `ProblemArea` with the same `(category, test)` key, or push a new
area holding just this issue. -/
def storeProblemArea (category test : String) (issue : ElementIssue) :
    List ProblemArea → List ProblemArea
  | [] => [⟨category, test, [issue], none⟩]
  | pa :: rest =>
    if pa.category = category ∧ pa.test = test then
      { pa with issues := pa.issues ++ [issue] } :: rest
    else
      pa :: storeProblemArea category test issue rest

/-- `clearProblemAreas()`: `this.problemAreas = []`. -/
def clearProblemAreas (_areas : List ProblemArea) : List ProblemArea := []

/-- An element's bounding box as Playwright reports it (CSS pixels, may be
fractional). -/
structure Box where
  x : ℚ
  y : ℚ
  width : ℚ
  height : ℚ
deriving DecidableEq, Repr

/-- The page interactions `recordProblemArea` performs for one selector:
`locator(selector).count()` (unguarded, may throw),
`locator.first().boundingBox()` (unguarded, may throw or be null), and
`takeElementScreenshot` (internally guarded; `none` covers both a failed
capture and a zero-match re-count inside the helper). -/
structure RecordEnv where
  countResult : Except Unit ℕ
  boxResult : Except Unit (Option Box)
  shotResult : Option String
deriving Repr

/-- `recordProblemArea(page, category, test, selector, description,
severity, recommendation, takeScreenshot)` from `screenshot-analyzer.ts`:
returns `null` (storing nothing) when the selector matches zero elements,
when the bounding box is `null`, or when a page interaction throws (the
outer `catch` returns `null`); otherwise rounds the geometry, optionally
attaches a screenshot path, stores the issue via `storeProblemArea`, and
returns it. -/
def recordProblemArea (env : RecordEnv) (category test selector description : String)
    (severity : Severity) (recommendation : String) (takeScreenshot : Bool)
    (areas : List ProblemArea) : Option ElementIssue × List ProblemArea :=
  match env.countResult with
  | .error _ => (none, areas)
  | .ok count =>
    if count = 0 then (none, areas)
    else
      match env.boxResult with
      | .error _ => (none, areas)
      | .ok none => (none, areas)
      | .ok (some box) =>
        let shot : Option String := if takeScreenshot then env.shotResult else none
        let issue : ElementIssue :=
          ⟨selector, jsRound box.x, jsRound box.y, jsRound box.width,
            jsRound box.height, description, severity, recommendation, shot⟩
        (some issue, storeProblemArea category test issue areas)

/-- Run `recordProblemArea` against the session's problem areas, keeping
only the state (probes ignore its return value). -/
def recordProblemAreaState (env : RecordEnv) (category test selector description : String)
    (severity : Severity) (recommendation : String) (takeScreenshot : Bool)
    (st : SessionState) : SessionState :=
  { st with problemAreas :=
      (recordProblemArea env category test selector description severity
        recommendation takeScreenshot st.problemAreas).2 }

-- ========================================
-- Contrast math (getContrast, lines 553-576), over ℝ
-- ========================================

/-- One channel of `getLuminance`: `x = c / 255;
x <= 0.03928 ? x / 12.92 : Math.pow((x + 0.055) / 1.055, 2.4)`.
The JS double arithmetic is modelled by exact real arithmetic. -/
noncomputable def linearizeChannel (c : ℕ) : ℝ :=
  let x : ℝ := (c : ℝ) / 255
  if x ≤ 0.03928 then x / 12.92 else ((x + 0.055) / 1.055) ^ (2.4 : ℝ)

/-- `getLuminance(r, g, b)`: the WCAG relative luminance
`0.2126 * rs + 0.7152 * gs + 0.0722 * bs`. -/
noncomputable def getLuminance (r g b : ℕ) : ℝ :=
  0.2126 * linearizeChannel r + 0.7152 * linearizeChannel g +
    0.0722 * linearizeChannel b

/-- `getContrast(rgb1, rgb2)` applied to already-parsed channel triples:
`(lighter + 0.05) / (darker + 0.05)` where lighter/darker are the max/min
of the two luminances.  (The `parseRgb` string scraping that extracts the
three integers from a `rgb(...)` computed style is outside this model.) -/
noncomputable def getContrast (fg bg : ℕ × ℕ × ℕ) : ℝ :=
  let l1 := getLuminance fg.1 fg.2.1 fg.2.2
  let l2 := getLuminance bg.1 bg.2.1 bg.2.2
  let lighter := max l1 l2
  let darker := min l1 l2
  (lighter + 0.05) / (darker + 0.05)

/-- The flagging condition of `testColorContrast`: an element is reported
iff its computed contrast is `< 4.5` (WCAG AA for normal text). -/
def contrastFlagged (ratio : ℝ) : Prop := ratio < 4.5

/-- The WCAG contrast formula as the spec states it (channel divided by
255; linearized as `c/12.92` when `c <= 0.03928`, else
`((c+0.055)/1.055)^2.4`; luminance `0.2126 R + 0.7152 G + 0.0722 B`;
ratio `(lighter + 0.05) / (darker + 0.05)`), written independently for the
refinement comparison with `getContrast`. -/
noncomputable def wcagContrastRatio (fg bg : ℕ × ℕ × ℕ) : ℝ :=
  let lin : ℕ → ℝ := fun c =>
    let v : ℝ := (c : ℝ) / 255
    if v ≤ 0.03928 then v / 12.92 else ((v + 0.055) / 1.055) ^ (2.4 : ℝ)
  let lum : ℕ × ℕ × ℕ → ℝ := fun t =>
    0.2126 * lin t.1 + 0.7152 * lin t.2.1 + 0.0722 * lin t.2.2
  (max (lum fg) (lum bg) + 0.05) / (min (lum fg) (lum bg) + 0.05)

-- ========================================
-- Performance probe scoring (testPerformance, lines 258-287)
-- ========================================

/-- `loadTime < 3000 ? 10 : loadTime < 5000 ? 7 : loadTime < 8000 ? 4 : 1`
(the Page Load Time score). -/
def loadTimeScore (loadTime : ℕ) : ℚ :=
  if loadTime < 3000 then 10
  else if loadTime < 5000 then 7
  else if loadTime < 8000 then 4
  else 1

/-- `loadTime < 3000 ? 'pass' : loadTime < 5000 ? 'warning' : 'fail'`
(the Page Load Time status). -/
def loadTimeStatus (loadTime : ℕ) : Status :=
  if loadTime < 3000 then .pass
  else if loadTime < 5000 then .warning
  else .fail

/-- `loadTime > 5000 ? 'high' : 'medium'` (the Page Load Time severity). -/
def loadTimeSeverity (loadTime : ℕ) : Severity :=
  if loadTime > 5000 then .high else .medium

/-- `lcp < 2500 ? 10 : lcp < 4000 ? 7 : 4` (the LCP score). -/
def lcpScore (lcp : ℚ) : ℚ :=
  if lcp < 2500 then 10 else if lcp < 4000 then 7 else 4

/-- `lcp < 2500 ? 'pass' : lcp < 4000 ? 'warning' : 'fail'`. -/
def lcpStatus (lcp : ℚ) : Status :=
  if lcp < 2500 then .pass else if lcp < 4000 then .warning else .fail

/-- `totalSize < 3000000 ? 10 : totalSize < 5000000 ? 7 : 4`. -/
def sizeScore (totalSize : ℕ) : ℚ :=
  if totalSize < 3000000 then 10 else if totalSize < 5000000 then 7 else 4

/-- Environment of `testPerformance`: the three unguarded
`page.evaluate` calls (navigation/paint metrics, resource metrics, the
buffered LCP observer — whose internal `try` and 5-second timeout make it
resolve with `(0, null)` rather than reject, hence `lcpEval` cannot
throw), plus the elapsed `Date.now() - startTime` value. -/
structure PerfEnv where
  elapsed : ℕ
  metricsEval : Except Unit (ℚ × ℚ × ℚ)
  resourcesEval : Except Unit (ℕ × ℕ)
  lcpEval : ℚ × Option LCPEntry
deriving Repr

/-- `testPerformance()`: captures the metrics snapshot and appends the
Page Load Time, Largest Contentful Paint and Total Page Size results.
An unguarded `evaluate` rejection propagates (`.error`). -/
def testPerformance (env : PerfEnv) (st : SessionState) :
    Except Unit SessionState :=
  match env.metricsEval with
  | .error _ => .error ()
  | .ok (domContentLoaded, firstPaint, firstContentfulPaint) =>
    match env.resourcesEval with
    | .error _ => .error ()
    | .ok (count, totalSize) =>
      let lcp := (env.lcpEval).1
      let lcpEntry := (env.lcpEval).2
      let loadTime := env.elapsed
      let st := { st with performanceMetrics :=
        ⟨loadTime, domContentLoaded, firstPaint, firstContentfulPaint,
          lcp, lcpEntry, totalSize, count⟩ }
      let st := addResult st <| mkResult "Performance" "Page Load Time"
        (loadTimeStatus loadTime) (loadTimeScore loadTime)
        ("Page loaded in " ++ toString loadTime ++ "ms. Recommended: < 3000ms")
        (loadTimeSeverity loadTime) none none
      let st := addResult st <| mkResult "Performance" "Largest Contentful Paint"
        (lcpStatus lcp) (lcpScore lcp)
        ("LCP: " ++ toString (jsRound lcp) ++ "ms. Recommended: < 2500ms")
        (if lcp > 4000 then .high else .medium) none none
      let st := addResult st <| mkResult "Performance" "Total Page Size"
        (if totalSize < 3000000 then .pass else .warning) (sizeScore totalSize)
        ("Total size: " ++ toFixed2 ((totalSize : ℚ) / 1024 / 1024) ++ "MB, " ++
          toString count ++ " requests")
        .low none none
      .ok st

-- ========================================
-- Visual hierarchy probe (testVisualHierarchy, lines 293-368)
-- ========================================

/-- Fold `recordProblemArea` over selector/environment pairs (the
`for ... of` loops in the probes; each call is additionally wrapped in a
`try` that ignores failures, and `recordProblemArea` itself never
throws). -/
def recordAll (category test description : String) (severity : Severity)
    (recommendation : String) (pairs : List (String × RecordEnv))
    (st : SessionState) : SessionState :=
  pairs.foldl
    (fun st p =>
      recordProblemAreaState p.2 category test p.1 description severity
        recommendation true st)
    st

/-- The `h1..h6` counts returned by the heading-hierarchy `evaluate`. -/
structure HeadingCounts where
  h1 : ℕ
  h2 : ℕ
  h3 : ℕ
  h4 : ℕ
  h5 : ℕ
  h6 : ℕ
deriving DecidableEq, Repr

/-- The joined `tag:count` description the probe builds for the heading
structure details. -/
def headingDetails (h : HeadingCounts) : String :=
  "h1:" ++ toString h.h1 ++ ", h2:" ++ toString h.h2 ++ ", h3:" ++
    toString h.h3 ++ ", h4:" ++ toString h.h4 ++ ", h5:" ++ toString h.h5 ++
    ", h6:" ++ toString h.h6

/-- The image-alt `evaluate` result: total images, images missing alt,
and the (at most 3) selectors computed for missing-alt images. -/
structure ImagesEval where
  total : ℕ
  withoutAlt : ℕ
  missingAltSelectors : List String
deriving DecidableEq, Repr

/-- `images.withoutAlt === 0 ? 10 : Math.max(0, 10 - withoutAlt * 2)`. -/
def altScore (withoutAlt : ℕ) : ℚ :=
  if withoutAlt = 0 then 10 else jsMax 0 (10 - (withoutAlt : ℚ) * 2)

/-- Environment of `testVisualHierarchy`: the `h1` locator count, the two
`evaluate` calls (all unguarded), and the environments of the
`recordProblemArea` calls made for the missing-alt selectors. -/
structure VHEnv where
  h1Count : Except Unit ℕ
  headings : Except Unit HeadingCounts
  images : Except Unit ImagesEval
  recordEnvs : List RecordEnv
deriving Repr

/-- `testVisualHierarchy()`: the H1, Heading Hierarchy and Image Alt Text
results, recording problem areas for missing-alt images. -/
def testVisualHierarchy (env : VHEnv) (st : SessionState) :
    Except Unit SessionState :=
  match env.h1Count with
  | .error _ => .error ()
  | .ok h1Count =>
    let st := addResult st <| mkResult "Visual Design" "H1 Heading"
      (if h1Count = 1 then .pass else .fail)
      (if h1Count = 1 then 10 else 0)
      ("Found " ++ toString h1Count ++ " H1 tag(s). Recommended: exactly 1")
      (if h1Count = 0 then .high else .medium) none none
    match env.headings with
    | .error _ => .error ()
    | .ok h =>
      let hasProperHierarchy := h.h1 > 0 ∧ h.h2 > 0
      let st := addResult st <| mkResult "Visual Design" "Heading Hierarchy"
        (if hasProperHierarchy then .pass else .warning)
        (if hasProperHierarchy then 10 else 6)
        ("Heading structure: " ++ headingDetails h) .medium none none
      match env.images with
      | .error _ => .error ()
      | .ok images =>
        let st := recordAll "Visual Design" "Image Alt Text"
          "Image missing alt text - impacts accessibility" .high
          "Add descriptive alt text to all images for better accessibility"
          (images.missingAltSelectors.zip env.recordEnvs) st
        let st := addResult st <| mkResult "Visual Design" "Image Alt Text"
          (if images.withoutAlt = 0 then .pass else .fail)
          (altScore images.withoutAlt)
          (toString images.withoutAlt ++ " out of " ++ toString images.total ++
            " images missing alt text")
          (if images.withoutAlt > 0 then .high else .low) none none
        .ok st

-- ========================================
-- Color contrast probe (testColorContrast, lines 548-649)
-- ========================================

/-- One element flagged inside the contrast `evaluate` (the in-page
code keeps the tag, the computed selector, `contrast.toFixed(2)` and a
text snippet). -/
structure ContrastIssue where
  tag : String
  selector : String
  contrastStr : String
  text : String
deriving DecidableEq, Repr

/-- `contrastIssues.length === 0 ? 10 : Math.max(0, 10 - length * 0.5)`. -/
def contrastScore (issueCount : ℕ) : ℚ :=
  if issueCount = 0 then 10 else jsMax 0 (10 - (issueCount : ℚ) * 0.5)

/-- Environment of `testColorContrast`: the flagged-element list produced
by the unguarded contrast `evaluate` (whose per-element contrast
computation is `getContrast`, modelled separately over ℝ), and the
environments of the `recordProblemArea` calls for the first two issues. -/
structure ContrastEnv where
  issuesEval : Except Unit (List ContrastIssue)
  recordEnvs : List RecordEnv
deriving Repr

/-- `testColorContrast()`: records up to two problem areas and appends the
Color Contrast (WCAG AA) result; note the recommendations array is passed
to `addResult` even when empty. -/
def testColorContrast (env : ContrastEnv) (st : SessionState) :
    Except Unit SessionState :=
  match env.issuesEval with
  | .error _ => .error ()
  | .ok issues =>
    let recommendations : List String :=
      if issues.length > 0 then
        ["Increase contrast ratio between text and background colors",
         "Use tools like WebAIM Color Contrast Checker to validate WCAG AA compliance (4.5:1)",
         "Consider using darker text on light backgrounds or lighter text on dark backgrounds"]
      else []
    let st :=
      if issues.length > 0 then
        ((issues.take 2).zip env.recordEnvs).foldl
          (fun st p =>
            recordProblemAreaState p.2 "Visual Design" "Color Contrast"
              p.1.selector
              ("Text has low contrast ratio (" ++ p.1.contrastStr ++
                ":1, requires 4.5:1)")
              .high "Increase contrast ratio to meet WCAG AA standards (4.5:1)"
              true st)
          st
      else st
    let st := addResult st <| mkResult "Visual Design" "Color Contrast (WCAG AA)"
      (if issues.length = 0 then .pass else .warning)
      (contrastScore issues.length)
      (if issues.length = 0 then "All text has sufficient contrast"
       else toString issues.length ++ " text elements have low contrast (< 4.5:1)")
      (if issues.length > 5 then .high else .medium)
      none (some recommendations)
    .ok st

-- ========================================
-- Navigation probe (testNavigation, lines 374-449)
-- ========================================

/-- Environment of `testNavigation`: the nav locator count and the three
unguarded `evaluate` calls (for the menu-items evaluate only the length
of the returned link array is consumed). -/
structure NavEnv where
  navCount : Except Unit ℕ
  logoExists : Except Unit Bool
  menuItemCount : Except Unit ℕ
  mobileMenuExists : Except Unit Bool
deriving Repr

/-- `testNavigation()`: Navigation Element, Logo/Home Link, Menu Items and
Mobile Menu results. -/
def testNavigation (env : NavEnv) (st : SessionState) :
    Except Unit SessionState :=
  match env.navCount with
  | .error _ => .error ()
  | .ok navCount =>
    let navExists := navCount > 0
    let st := addResult st <| mkResult "Navigation" "Navigation Element"
      (if navExists then .pass else .fail) (if navExists then 10 else 0)
      (if navExists then "Navigation element found"
       else "No semantic navigation element found") .high none none
    match env.logoExists with
    | .error _ => .error ()
    | .ok logoExists =>
      let st := addResult st <| mkResult "Navigation" "Logo/Home Link"
        (if logoExists then .pass else .warning) (if logoExists then 10 else 7)
        (if logoExists then "Logo/home link found" else "No clear home link found")
        .medium none none
      match env.menuItemCount with
      | .error _ => .error ()
      | .ok menuItems =>
        let st := addResult st <| mkResult "Navigation" "Menu Items"
          (if menuItems > 0 then .pass else .fail)
          (if menuItems > 2 then 10 else 5)
          ("Found " ++ toString menuItems ++ " navigation links") .medium none none
        match env.mobileMenuExists with
        | .error _ => .error ()
        | .ok mobileMenuExists =>
          let st := addResult st <| mkResult "Navigation" "Mobile Menu"
            (if mobileMenuExists then .pass else .warning)
            (if mobileMenuExists then 10 else 7)
            (if mobileMenuExists then "Mobile menu button found"
             else "No mobile menu button detected") .medium none none
          .ok st

-- ========================================
-- Readability probe (testReadability, lines 455-542)
-- ========================================

/-- The text-metrics `evaluate` result.  (`minFontSize` is
`Math.min(...fontSizes)`, which is `Infinity` on a page with no sampled
text; the model takes the returned value as given and does not model the
infinite case.) -/
structure TextMetrics where
  avgFontSize : ℚ
  minFontSize : ℚ
  avgLineHeight : ℚ
  textElementsCount : ℕ
deriving DecidableEq, Repr

/-- Environment of `testReadability`: two unguarded `evaluate` calls. -/
structure ReadEnv where
  textMetrics : Except Unit TextMetrics
  overflowCount : Except Unit ℕ
deriving Repr

/-- `testReadability()`: Font Size, Line Height and Text Overflow
results. -/
def testReadability (env : ReadEnv) (st : SessionState) :
    Except Unit SessionState :=
  match env.textMetrics with
  | .error _ => .error ()
  | .ok m =>
    let st := addResult st <| mkResult "Readability" "Font Size"
      (if m.minFontSize ≥ 16 then .pass else .warning)
      (if m.minFontSize ≥ 16 then 10 else if m.minFontSize ≥ 14 then 7 else 4)
      ("Minimum font size: " ++ toFixed1 m.minFontSize ++ "px. Recommended: >= 16px")
      (if m.minFontSize < 14 then .high else .medium) none none
    let st := addResult st <| mkResult "Readability" "Line Height"
      (if m.avgLineHeight ≥ 1.5 then .pass else .warning)
      (if m.avgLineHeight ≥ 1.5 then 10 else if m.avgLineHeight ≥ 1.3 then 7 else 4)
      ("Average line height: " ++ toFixed2 m.avgLineHeight ++ ". Recommended: >= 1.5")
      .low none none
    match env.overflowCount with
    | .error _ => .error ()
    | .ok hasOverflow =>
      let st := addResult st <| mkResult "Readability" "Text Overflow"
        (if hasOverflow = 0 then .pass else .warning)
        (if hasOverflow = 0 then 10 else 7)
        (if hasOverflow > 0 then
          toString hasOverflow ++ " elements with horizontal overflow detected"
         else "No overflow detected") .medium none none
      .ok st

-- ========================================
-- CTA probe (testCTAButtons, lines 655-733)
-- ========================================

/-- One interactive element sampled by the CTA `evaluate`: its text
content, `id`/`className` (empty string when absent, as in the DOM), its
bounding-rect geometry and whether it carries an `aria-label`. -/
structure BtnInfo where
  text : String
  id : String
  className : String
  width : ℚ
  height : ℚ
  top : ℚ
  hasAriaLabel : Bool
deriving DecidableEq, Repr

/-- The fixed CTA keyword set. -/
def ctaKeywords : List String :=
  ["subscribe", "contact", "get started", "learn more", "download", "buy",
   "register", "sign up", "join", "submit"]

/-- A button is a CTA iff its lower-cased text contains one of the
keywords. -/
def isCTA (b : BtnInfo) : Bool :=
  ctaKeywords.any (fun kw => strContains (strToLower b.text) kw)

/-- A CTA is "small" iff `rect.width < 80 || rect.height < 40`. -/
def isSmallCTA (b : BtnInfo) : Bool := b.width < 80 || b.height < 40

/-- The fallback selector computed in the page for a flagged button
(`#id`, else `.firstClass`, else `button:nth-of-type(i)` with `i` the
index within the sliced array). -/
def btnSelector (b : BtnInfo) (i : ℕ) : String :=
  if b.id ≠ "" then "#" ++ b.id
  else if b.className ≠ "" then "." ++ firstWord b.className
  else "button:nth-of-type(" ++ toString i ++ ")"

/-- Environment of `testCTAButtons`: the sampled buttons and viewport
height from the unguarded `evaluate`, plus the environments of the
`recordProblemArea` calls for the (at most one) small-CTA selector. -/
structure CTAEnv where
  buttonsEval : Except Unit (List BtnInfo)
  innerHeight : ℚ
  recordEnvs : List RecordEnv
deriving Repr

/-- `testCTAButtons()`: filters CTAs by keyword, flags small and
below-the-fold CTAs, records a problem area for the first small CTA, and
appends the Call-to-Action Buttons result. -/
def testCTAButtons (env : CTAEnv) (st : SessionState) :
    Except Unit SessionState :=
  match env.buttonsEval with
  | .error _ => .error ()
  | .ok buttons =>
    let ctas := buttons.filter isCTA
    let smallCTAs := ctas.filter isSmallCTA
    let totalCTAs := ctas.length
    let smallCount := smallCTAs.length
    let smallCTASelectors :=
      (smallCTAs.take 1).enum.map (fun p => btnSelector p.2 p.1)
    let notVisible :=
      (ctas.filter (fun b => b.top < 0 || b.top > env.innerHeight)).length
    let withAriaLabel := (ctas.filter (fun b => b.hasAriaLabel)).length
    let st :=
      recordAll "Interactive Elements" "CTA Buttons Size"
        "CTA button is too small (< 80x40px)" .high
        "Increase button size to at least 80x40px for better usability"
        (smallCTASelectors.zip env.recordEnvs) st
    let visibility : Status := if totalCTAs > notVisible then .pass else .warning
    let recommendations : List String :=
      (if smallCount > 0 then
        ["Increase CTA button size to at least 80x40px for better touch targets",
         "Ensure buttons are easily clickable on mobile devices (minimum 44x44px recommended)"]
       else []) ++
      (if notVisible > 0 then
        ["Move CTA buttons above the fold to improve visibility",
         "Ensure primary CTAs are visible without scrolling on initial page load"]
       else []) ++
      (if withAriaLabel < totalCTAs then
        ["Add proper aria-label attributes to all CTA buttons for accessibility"]
       else [])
    let st := addResult st <| mkResult "Interactive Elements" "Call-to-Action Buttons"
      visibility
      (if totalCTAs > 0 then (if notVisible = 0 then 10 else 7) else 5)
      ("Found " ++ toString totalCTAs ++ " CTA buttons, " ++ toString smallCount ++
        " are too small, " ++ toString notVisible ++ " not visible above fold")
      (if smallCount > 2 then .high else .medium)
      none
      (if recommendations.length > 0 then some recommendations else none)
    .ok st

-- ========================================
-- Forms probe (testForms, lines 880-953)
-- ========================================

/-- The form-analysis `evaluate` result. -/
structure FormsEval where
  formCount : ℕ
  inputCount : ℕ
  inputsWithLabelsCount : ℕ
  requiredCount : ℕ
  placeholderCount : ℕ
deriving DecidableEq, Repr

/-- Environment of `testForms`: one unguarded `evaluate`. -/
structure FormsEnv where
  analysis : Except Unit FormsEval
deriving Repr

/-- `testForms()`: a single pass result when no form exists, otherwise the
Input Labels, Required Fields and Placeholder Text results. -/
def testForms (env : FormsEnv) (st : SessionState) :
    Except Unit SessionState :=
  match env.analysis with
  | .error _ => .error ()
  | .ok f =>
    if f.formCount = 0 then
      .ok <| addResult st <| mkResult "Forms" "Form Existence" .pass 10
        "No forms found on this page" .low none none
    else
      let labelScore : ℚ :=
        if f.inputsWithLabelsCount = f.inputCount then 10
        else if f.inputsWithLabelsCount > 0 then 5 else 0
      let st := addResult st <| mkResult "Forms" "Input Labels"
        (if f.inputsWithLabelsCount = f.inputCount then .pass else .fail)
        labelScore
        (toString f.inputsWithLabelsCount ++ " out of " ++ toString f.inputCount ++
          " inputs have associated labels")
        (if f.inputsWithLabelsCount < f.inputCount then .high else .low) none none
      let st := addResult st <| mkResult "Forms" "Required Fields" .pass 10
        (toString f.requiredCount ++ " required fields marked") .low none none
      let st := addResult st <| mkResult "Forms" "Placeholder Text"
        (if f.placeholderCount > 0 then .pass else .warning)
        (if f.placeholderCount > 0 then 10 else 7)
        (toString f.placeholderCount ++ " inputs have placeholder text")
        .low none none
      .ok st

-- ========================================
-- Interactive elements probe (testInteractiveElements, lines 959-1024)
-- ========================================

/-- The interactive-elements `evaluate` result. -/
structure InteractiveEval where
  buttonCount : ℕ
  linkCount : ℕ
  externalLinkCount : ℕ
  smallTouchTargetCount : ℕ
deriving DecidableEq, Repr

/-- Environment of `testInteractiveElements`: one unguarded `evaluate`. -/
structure InteractiveEnv where
  analysis : Except Unit InteractiveEval
deriving Repr

/-- `testInteractiveElements()`: Buttons, Links and Touch Target Size
results. -/
def testInteractiveElements (env : InteractiveEnv) (st : SessionState) :
    Except Unit SessionState :=
  match env.analysis with
  | .error _ => .error ()
  | .ok a =>
    let st := addResult st <| mkResult "Interactive Elements" "Buttons"
      (if a.buttonCount > 0 then .pass else .warning)
      (if a.buttonCount > 0 then 10 else 7)
      ("Found " ++ toString a.buttonCount ++ " buttons") .low none none
    let st := addResult st <| mkResult "Interactive Elements" "Links"
      (if a.linkCount > 0 then .pass else .warning)
      (if a.linkCount > 0 then 10 else 7)
      ("Found " ++ toString a.linkCount ++ " links (" ++
        toString a.externalLinkCount ++ " external)") .low none none
    let touchScore : ℚ :=
      if a.smallTouchTargetCount = 0 then 10
      else if a.smallTouchTargetCount < 3 then 7 else 4
    let st := addResult st <| mkResult "Interactive Elements" "Touch Target Size"
      (if a.smallTouchTargetCount = 0 then .pass else .warning) touchScore
      (toString a.smallTouchTargetCount ++ " buttons/links smaller than 44x44px")
      (if a.smallTouchTargetCount > 3 then .high else .medium) none none
    .ok st

-- ========================================
-- Keyboard-focus probe (testKeyboardNavigation, lines 739-784)
-- ========================================

/-- The keyboard-analysis `evaluate` result. -/
structure KeyboardEval where
  totalFocusable : ℕ
  withoutVisibleFocus : ℕ
  tabIndexIssues : ℕ
deriving DecidableEq, Repr

/-- Environment of `testKeyboardNavigation`: one unguarded `evaluate`. -/
structure KeyboardEnv where
  analysis : Except Unit KeyboardEval
deriving Repr

/-- `testKeyboardNavigation()`: the Accessibility / Keyboard Navigation
result with `Math.min(10, totalFocusable)` as its score. -/
def testKeyboardNavigation (env : KeyboardEnv) (st : SessionState) :
    Except Unit SessionState :=
  match env.analysis with
  | .error _ => .error ()
  | .ok k =>
    let recommendations : List String :=
      (if k.withoutVisibleFocus > 0 then
        ["Add visible focus indicators to all interactive elements",
         "Use CSS :focus or :focus-visible pseudo-classes with clear styling (outline, box-shadow, or border)",
         "Ensure focus styles have sufficient contrast to be visible"]
       else []) ++
      (if k.tabIndexIssues > 0 then
        ["Avoid using positive tabindex values; let natural HTML order define tab sequence",
         "Use tabindex=0 for elements that need focus but are not naturally focusable"]
       else [])
    let st := addResult st <| mkResult "Accessibility" "Keyboard Navigation"
      (if k.totalFocusable > 3 then .pass else .warning)
      (jsMin 10 (k.totalFocusable : ℚ))
      (toString k.totalFocusable ++ " focusable elements, " ++
        toString k.withoutVisibleFocus ++ " without visible focus, " ++
        toString k.tabIndexIssues ++ " with positive tabindex")
      (if k.withoutVisibleFocus > 5 then .high else .medium)
      none
      (if recommendations.length > 0 then some recommendations else none)
    .ok st

-- ========================================
-- SEO probe (testSEOBasics, lines 790-874)
-- ========================================

/-- The SEO `evaluate` result (`metaDescription` is the attribute value or
the empty string; `titleLength` is `document.title.length`). -/
structure SEOEval where
  hasMetaDescription : Bool
  metaDescription : String
  hasCanonical : Bool
  hasStructuredData : Bool
  title : String
deriving DecidableEq, Repr

/-- Environment of `testSEOBasics`: one unguarded `evaluate`. -/
structure SEOEnv where
  analysis : Except Unit SEOEval
deriving Repr

/-- `testSEOBasics()`: Meta Description, Page Title, Canonical Tag and
Structured Data results.  (JS string lengths are UTF-16 code-unit counts;
`String.length` coincides on the ASCII data considered here.) -/
def testSEOBasics (env : SEOEnv) (st : SessionState) :
    Except Unit SessionState :=
  match env.analysis with
  | .error _ => .error ()
  | .ok s =>
    let descLen := s.metaDescription.length
    let descScore : ℚ :=
      if s.hasMetaDescription ∧ descLen ≥ 120 ∧ descLen ≤ 160 then 10 else 7
    let descRecommendations : List String :=
      (if ¬s.hasMetaDescription then
        ["Add a meta description tag in the <head> section"] else []) ++
      (if descLen < 120 ∨ descLen > 160 then
        ["Keep meta description between 120-160 characters for optimal display in search results"]
       else [])
    let st := addResult st <| mkResult "SEO" "Meta Description"
      (if s.hasMetaDescription then .pass else .fail) descScore
      (if s.hasMetaDescription then
        "Found (" ++ toString descLen ++ " chars)"
       else "Missing meta description")
      (if s.hasMetaDescription then .low else .high)
      none
      (if descRecommendations.length > 0 then some descRecommendations else none)
    let titleLength := s.title.length
    let titleScore : ℚ := if titleLength ≥ 30 ∧ titleLength ≤ 60 then 10 else 7
    let titleRecommendations : List String :=
      (if s.title = "" then
        ["Add a meaningful page title in the <head> section"] else []) ++
      (if titleLength < 30 ∨ titleLength > 60 then
        ["Keep page title between 30-60 characters for optimal search result display"]
       else [])
    let st := addResult st <| mkResult "SEO" "Page Title"
      (if s.title ≠ "" then .pass else .fail) titleScore
      ("\"" ++ s.title.take 50 ++ "...\" (" ++ toString titleLength ++ " chars)")
      .low none
      (if titleRecommendations.length > 0 then some titleRecommendations else none)
    let st := addResult st <| mkResult "SEO" "Canonical Tag"
      (if s.hasCanonical then .pass else .warning)
      (if s.hasCanonical then 10 else 7)
      (if s.hasCanonical then "Canonical tag present" else "No canonical tag found")
      .low none
      (if s.hasCanonical then none
       else some ["Add a canonical tag to prevent duplicate content issues"])
    let st := addResult st <| mkResult "SEO" "Structured Data"
      (if s.hasStructuredData then .pass else .warning)
      (if s.hasStructuredData then 10 else 5)
      (if s.hasStructuredData then "JSON-LD structured data found"
       else "No structured data detected")
      .medium none
      (if s.hasStructuredData then none
       else some ["Add JSON-LD structured data (schema.org) to help search engines understand your content"])
    .ok st

-- ========================================
-- Responsive probe (testResponsive, lines 1030-1104)
-- ========================================

/-- A configured device/viewport (`config.devices` entries). -/
structure Device where
  name : String
  width : ℕ
  height : ℕ
deriving DecidableEq, Repr

/-- The fixed device list from `config`. -/
def configDevices : List Device :=
  [⟨"Desktop 1920x1080", 1920, 1080⟩,
   ⟨"Desktop 1366x768", 1366, 768⟩,
   ⟨"Tablet iPad", 768, 1024⟩,
   ⟨"Mobile iPhone 12", 390, 844⟩,
   ⟨"Mobile Samsung S21", 360, 800⟩]

/-- `/mobile|iphone|android|s21/i.test(device.name) || device.width <= 420`. -/
def isMobileDevice (d : Device) : Bool :=
  strContains (strToLower d.name) "mobile" || strContains (strToLower d.name) "iphone" ||
    strContains (strToLower d.name) "android" || strContains (strToLower d.name) "s21" ||
    d.width ≤ 420

/-- What happens for one device inside `testResponsive`'s per-device
`try`: either `browser.newContext()` itself rejects (no context exists),
or a later await (`goto`, an `evaluate`, the screenshot) rejects after the
context was created, or every step succeeds and yields the three
measurements plus the screenshot path. -/
inductive DeviceOutcome
  | ctxFail
  | openedFail
  | ok (hasHorizontalScroll : Bool) (textTooSmall : ℕ) (smallTargets : ℕ)
      (screenshotPath : String)
deriving Repr

/-- The issue strings accumulated for one successfully-tested device. -/
def deviceIssues (d : Device) (hasHorizontalScroll : Bool)
    (textTooSmall smallTargets : ℕ) : List String :=
  (if hasHorizontalScroll then ["Horizontal scrollbar detected"] else []) ++
  (if textTooSmall > 5 then
    [toString textTooSmall ++ " text elements smaller than 14px"] else []) ++
  (if isMobileDevice d ∧ smallTargets > 0 then
    [toString smallTargets ++ " touch targets smaller than 44x44"] else [])

/-- Process one device of `testResponsive`'s loop.  The error paths add
the degraded warning result; a failure after the context was opened
leaves that context unclosed (the `catch` has no `ctx.close()`), counted
in `leakedContexts`. -/
def testResponsiveDevice (d : Device) (outcome : DeviceOutcome)
    (st : SessionState) : SessionState :=
  match outcome with
  | .ctxFail =>
    addResult st <| mkResult "Responsive Design" d.name .warning 5
      "Could not fully test responsive design for this device" .low none none
  | .openedFail =>
    addResult { st with leakedContexts := st.leakedContexts + 1 } <|
      mkResult "Responsive Design" d.name .warning 5
        "Could not fully test responsive design for this device" .low none none
  | .ok hasHScroll textTooSmall smallTargets shot =>
    let issues := deviceIssues d hasHScroll textTooSmall smallTargets
    let st := { st with responsiveResults :=
      st.responsiveResults ++ [⟨d.name, d.width, d.height, issues, some shot⟩] }
    addResult st <| mkResult "Responsive Design" d.name
      (if issues.length = 0 then .pass else .warning)
      (if issues.length = 0 then 10 else if issues.length = 1 then 7 else 5)
      (if issues.length = 0 then "No issues detected"
       else String.intercalate ", " issues)
      (if issues.length > 1 then .medium else .low) none none

/-- `testResponsive()`: iterate the configured devices; each device's
failure is swallowed by the per-device `catch`, so the probe itself never
throws. -/
def testResponsive (devices : List Device) (outcome : Device → DeviceOutcome)
    (st : SessionState) : SessionState :=
  devices.foldl (fun st d => testResponsiveDevice d (outcome d) st) st

-- ========================================
-- Accessibility probe (testAccessibility, lines 1110-1332)
-- ========================================

/-- Where the axe-core audit engine can be loaded from: the remote CDN
URL passed to the first `addScriptTag`, or the locally bundled
`axe-core/axe.min.js` package asset. -/
inductive AxeSource
  | remote
  | localAsset
deriving DecidableEq, Repr

/-- The load attempts `testAccessibility` makes, in order: it always
tries the CDN first, and tries the local package asset only if the CDN
attempt did not leave `window.axe` defined. -/
def axeLoadAttempts (cdnLoads : Bool) : List AxeSource :=
  if cdnLoads then [.remote] else [.remote, .localAsset]

/-- Which source the engine ends up loaded from (`none` when neither
loads). -/
def axeLoadedFrom (cdnLoads localLoads : Bool) : Option AxeSource :=
  if cdnLoads then some .remote
  else if localLoads then some .localAsset
  else none

/-- One axe violation as returned by `axe.run()`. -/
structure Violation where
  id : String
  impact : A11ySeverity
  description : String
  tags : List String
  nodeTargets : List (List String)
  help : String
deriving DecidableEq, Repr

/-- `violation.nodes[0]?.target.join(', ') || 'Unknown'` (both a missing
first node and an empty join are falsy in JS). -/
def violationElement (v : Violation) : String :=
  match v.nodeTargets.head? with
  | none => "Unknown"
  | some ts =>
    let s := String.intercalate ", " ts
    if s = "" then "Unknown" else s

/-- `${violation.nodes[0]?.target.join(', ')}` as interpolated into the
details string (a missing first node interpolates as "undefined"). -/
def violationTargetStr (v : Violation) : String :=
  match v.nodeTargets.head? with
  | none => "undefined"
  | some ts => String.intercalate ", " ts

/-- `violation.tags.filter(t => t.startsWith('wcag')).join(', ')`. -/
def violationWcagLevel (v : Violation) : String :=
  String.intercalate ", " (v.tags.filter (fun t => t.startsWith "wcag"))

/-- The fixed `ruleRecommendations` table (the four important rules). -/
def ruleRecommendation (id : String) : Option String :=
  if id = "button-name" then
    some "Ensure buttons with only icons have accessible names (aria-label or visually hidden text)"
  else if id = "aria-input-field-name" then
    some "Provide accessible names for form inputs (label element or aria-label)"
  else if id = "color-contrast" then
    some "Increase color contrast to meet WCAG AA (4.5:1 for normal text)"
  else if id = "scrollable-region-focusable" then
    some "Ensure scrollable regions are keyboard focusable and have a visible focus indicator"
  else none

/-- Process one axe violation: push the mapped `AccessibilityIssue`, and
additionally append a failing result for the rules in the
recommendations table. -/
def processViolation (st : SessionState) (v : Violation) : SessionState :=
  let st := { st with accessibilityIssues := st.accessibilityIssues ++
    [⟨v.id, v.impact, violationElement v, v.description, violationWcagLevel v⟩] }
  match ruleRecommendation v.id with
  | some rec =>
    addResult st <| mkResult "Accessibility" v.id .fail 0
      (v.help ++ ": " ++ violationTargetStr v) .high none (some [rec])
  | none => st

/-- The landmark counts computed in the landmarks `evaluate` (each count
already includes the corresponding semantic elements). -/
structure LandmarksEval where
  banner : ℕ
  navigation : ℕ
  main : ℕ
  contentinfo : ℕ
  complementary : ℕ
deriving DecidableEq, Repr

/-- The joined list of landmark roles with a nonzero count, in the fixed
role order. -/
def landmarksFound (l : LandmarksEval) : String :=
  String.intercalate ", "
    ((if l.banner > 0 then ["banner"] else []) ++
     (if l.navigation > 0 then ["navigation"] else []) ++
     (if l.main > 0 then ["main"] else []) ++
     (if l.contentinfo > 0 then ["contentinfo"] else []) ++
     (if l.complementary > 0 then ["complementary"] else []))

/-- Environment of `testAccessibility`.  `cdnLoads` / `localLoads` state
whether the CDN / local-package load attempt leaves `window.axe` defined
(each attempt's failure is caught locally).  `axeRun` is the unguarded
`axe.run()` evaluate (only reached when the engine loaded; its rejection
is the one way into the probe's outer `catch`).  The keyboard, skip-link,
language and landmark sections each sit in their own `try`, modelled by
their `Except` values. -/
structure A11yEnv where
  cdnLoads : Bool
  localLoads : Bool
  axeRun : Except Unit (List Violation)
  keyboardFocusCount : Except Unit ℕ
  skipLink : Except Unit Bool
  langAttr : Except Unit Bool
  landmarks : Except Unit LandmarksEval
deriving Repr

/-- The keyboard / skip-link / language / landmarks / overall-score tail
of `testAccessibility` (shared by the engine-loaded and engine-missing
paths). -/
def a11ySections (env : A11yEnv) (st : SessionState) : SessionState :=
  let st :=
    match env.keyboardFocusCount with
    | .error _ =>
      addResult st <| mkResult "Accessibility" "Keyboard Navigation" .warning 5
        "Could not simulate keyboard navigation" .low none none
    | .ok size =>
      addResult st <| mkResult "Accessibility" "Keyboard Navigation"
        (if size > 1 then .pass else .fail) (if size > 1 then 10 else 0)
        (toString size ++ " distinct focus targets reached via Tab")
        (if size > 1 then .low else .high) none none
  let st :=
    match env.skipLink with
    | .error _ =>
      addResult st <| mkResult "Accessibility" "Skip Link" .warning 5
        "Could not test for skip link" .low none none
    | .ok hasSkipLink =>
      addResult st <| mkResult "Accessibility" "Skip Link"
        (if hasSkipLink then .pass else .warning)
        (if hasSkipLink then 10 else 7)
        (if hasSkipLink then "Skip link present"
         else "Consider adding a \"skip to content\" link for keyboard users")
        (if hasSkipLink then .low else .medium) none none
  let st :=
    match env.langAttr with
    | .error _ =>
      addResult st <| mkResult "Accessibility" "Language Attribute" .warning 5
        "Could not test language attribute" .low none none
    | .ok hasLang =>
      addResult st <| mkResult "Accessibility" "Language Attribute"
        (if hasLang then .pass else .fail) (if hasLang then 10 else 0)
        (if hasLang then "Language attribute present"
         else "Missing lang attribute on <html>") .high none none
  let st :=
    match env.landmarks with
    | .error _ =>
      addResult st <| mkResult "Accessibility" "ARIA Landmarks" .warning 5
        "Could not test ARIA landmarks" .low none none
    | .ok l =>
      addResult st <| mkResult "Accessibility" "ARIA Landmarks"
        (if l.main > 0 then .pass else .warning)
        (if l.main > 0 then 10 else 7)
        ("Landmarks found: " ++ landmarksFound l) .medium none none
  let criticalCount :=
    (st.accessibilityIssues.filter
      (fun i => i.severity = .critical ∨ i.severity = .serious)).length
  let accessibilityScore : ℚ :=
    if criticalCount = 0 then 10
    else if criticalCount ≤ 2 then 7
    else if criticalCount ≤ 5 then 4
    else 1
  addResult st <| mkResult "Accessibility" "Overall A11y Issues"
    (if criticalCount = 0 then .pass
     else if criticalCount ≤ 2 then .warning else .fail)
    accessibilityScore
    (toString st.accessibilityIssues.length ++ " total issues (" ++
      toString criticalCount ++ " critical/serious)")
    (if criticalCount > 2 then .high else .medium) none none

/-- `testAccessibility()`: load the audit engine (CDN first, local
package fallback), run it and map its violations, or degrade with a
warning result when it could not be loaded; the probe's outer
`try`/`catch` converts an `axe.run()` rejection into a single warning
result, so the probe never throws. -/
def testAccessibility (env : A11yEnv) (st : SessionState) : SessionState :=
  if env.cdnLoads || env.localLoads then
    match env.axeRun with
    | .error _ =>
      addResult st <| mkResult "Accessibility" "Overall A11y Issues" .warning 5
        "Accessibility testing could not be fully completed" .low none none
    | .ok violations =>
      a11ySections env (violations.foldl processViolation st)
  else
    a11ySections env <|
      addResult st <| mkResult "Accessibility" "axe-core" .warning 5
        "axe-core could not be loaded; accessibility automated checks were limited"
        .low none none

-- ========================================
-- Recommendations (generateRecommendations, lines 1338-1391)
-- ========================================

/-- The three fixed general best-practice suggestions appended last. -/
def generalSuggestions : List String :=
  ["📊 Consider implementing user analytics to track real user behavior",
   "🔍 Conduct user testing with real users to validate these findings",
   "✅ Create a prioritized action plan based on severity and business impact"]

/-- `generateRecommendations()`: the prioritized recommendation list
derived from the session state. -/
def generateRecommendations (st : SessionState) : List String :=
  let highPriorityIssues :=
    st.results.filter (fun r => r.severity = .high ∧ r.status = .fail)
  let mediumPriorityIssues :=
    st.results.filter (fun r => r.severity = .medium ∧ r.status = .fail)
  (if highPriorityIssues.length > 0 then
    ("🔴 HIGH PRIORITY: Found " ++ toString highPriorityIssues.length ++
      " critical issues that need immediate attention") ::
    (highPriorityIssues.take 3).map (fun issue =>
      "   • " ++ issue.category ++ " - " ++ issue.test ++ ": " ++ issue.details)
   else []) ++
  (if st.performanceMetrics.loadTime > 3000 then
    ["⚡ Optimize page load time by compressing images, minifying CSS/JS, and enabling caching"]
   else []) ++
  (if st.performanceMetrics.largestContentfulPaint > 2500 then
    ["⚡ Improve Largest Contentful Paint (LCP) by optimizing above-the-fold content"]
   else []) ++
  (match st.performanceMetrics.largestContentfulPaintEntry with
   | none => []
   | some e =>
     match e.url with
     | none => []
     | some u =>
       if u = "" then []
       else
         ["⚡ Consider optimizing LCP resource: " ++ u ++
          " — compress/convert (AVIF/WebP), resize to display size, or preload if it is the hero image"]) ++
  (match st.results.find? (fun r => r.test = "Image Alt Text" ∧ r.status = .fail) with
   | some _ => ["♿ Add descriptive alt text to all images for better accessibility"]
   | none => []) ++
  (let responsiveIssues := st.responsiveResults.filter (fun r => r.issues.length > 0)
   if responsiveIssues.length > 0 then
     ["📱 Fix responsive design issues on " ++
       String.intercalate ", " (responsiveIssues.map (fun r => r.device))]
   else []) ++
  (let criticalA11yIssues := st.accessibilityIssues.filter
     (fun i => i.severity = .critical ∨ i.severity = .serious)
   if criticalA11yIssues.length > 0 then
     ["♿ Address " ++ toString criticalA11yIssues.length ++
       " critical accessibility issues for WCAG compliance"]
   else []) ++
  (if mediumPriorityIssues.length > 5 then
    ["🟡 MEDIUM PRIORITY: " ++ toString mediumPriorityIssues.length ++
      " issues that should be addressed soon"]
   else []) ++
  generalSuggestions

-- ========================================
-- Report assembly and orchestrator (generateReport / runAllTests)
-- ========================================

/-- `UXReport` (the spec's Report).  `overallScore` is `none` when the JS
computation is `NaN` (empty findings); `url`/`testDate` carry no logic
and are omitted. -/
structure UXReport where
  overallScore : Option ℤ
  results : List TestResult
  performance : PerformanceMetrics
  accessibility : List AccessibilityIssue
  responsive : List ResponsiveTestResult
  recommendations : List String
deriving DecidableEq, Repr

/-- `generateReport()`: compute the overall score and recommendations and
assemble the report from the session state. -/
def generateReport (st : SessionState) : UXReport :=
  ⟨overallScore st.results, st.results, st.performanceMetrics,
    st.accessibilityIssues, st.responsiveResults, generateRecommendations st⟩

/-- What the caller of `runAllTests` observes: a resolved report, or the
rethrown exception (`raised`). -/
inductive RunOutcome
  | report (r : UXReport)
  | raised
deriving Repr

/-- The environment of one full run: whether `initialize()` and the
initial `page.goto` succeed, plus each probe's environment.  The
responsive probe's device outcomes are given per device. -/
structure RunEnv where
  launchOk : Bool
  navOk : Bool
  perf : PerfEnv
  vh : VHEnv
  contrast : ContrastEnv
  nav : NavEnv
  readability : ReadEnv
  cta : CTAEnv
  forms : FormsEnv
  interactive : InteractiveEnv
  keyboard : KeyboardEnv
  seo : SEOEnv
  deviceOutcome : Device → DeviceOutcome
  a11y : A11yEnv

/-- The fixed probe sequence of `runAllTests` (performance → visual
hierarchy → color contrast → navigation → readability → CTA → forms →
interactive elements → keyboard navigation → SEO → responsive →
accessibility).  `testResponsive` and `testAccessibility` catch their own
failures, so their steps always succeed. -/
def probeSequence (env : RunEnv) : List (SessionState → Except Unit SessionState) :=
  [testPerformance env.perf,
   testVisualHierarchy env.vh,
   testColorContrast env.contrast,
   testNavigation env.nav,
   testReadability env.readability,
   testCTAButtons env.cta,
   testForms env.forms,
   testInteractiveElements env.interactive,
   testKeyboardNavigation env.keyboard,
   testSEOBasics env.seo,
   (fun st => .ok (testResponsive configDevices env.deviceOutcome st)),
   (fun st => .ok (testAccessibility env.a11y st))]

/-- Await the probes one after another; the first rejection aborts the
sequence (there is no per-probe `try` in `runAllTests`). -/
def runProbes : List (SessionState → Except Unit SessionState) →
    SessionState → Except Unit SessionState
  | [], st => .ok st
  | p :: rest, st =>
    match p st with
    | .error e => .error e
    | .ok st => runProbes rest st

/-- `runAllTests()`: initialize, navigate, run the fixed probe sequence,
and build the report.  The `catch` block rethrows (`throw error`), so any
probe rejection reaches the caller as `raised`; the `finally` block runs
`cleanup()` on every exit path (the returned `Bool`). -/
def runAllTests (env : RunEnv) (st : SessionState) : RunOutcome × Bool :=
  if ¬env.launchOk then (.raised, true)
  else if ¬env.navOk then (.raised, true)
  else
    match runProbes (probeSequence env) st with
    | .error _ => (.raised, true)
    | .ok st => (.report (generateReport st), true)

-- ========================================
-- Derived characterizations and spec-side definitions
-- ========================================

/-- The `TestResult` pushed for one device by `testResponsive` (warning /
score 5 / low on any per-device failure; the computed result on
success). -/
def deviceFinding (d : Device) (o : DeviceOutcome) : TestResult :=
  match o with
  | .ctxFail =>
    mkResult "Responsive Design" d.name .warning 5
      "Could not fully test responsive design for this device" .low none none
  | .openedFail =>
    mkResult "Responsive Design" d.name .warning 5
      "Could not fully test responsive design for this device" .low none none
  | .ok h t s _ =>
    let issues := deviceIssues d h t s
    mkResult "Responsive Design" d.name
      (if issues.length = 0 then .pass else .warning)
      (if issues.length = 0 then 10 else if issues.length = 1 then 7 else 5)
      (if issues.length = 0 then "No issues detected"
       else String.intercalate ", " issues)
      (if issues.length > 1 then .medium else .low) none none

/-- The `ResponsiveTestResult` entry a device contributes (none on
failure: the push happens only on the success path). -/
def deviceResponsiveEntry (d : Device) (o : DeviceOutcome) :
    Option ResponsiveTestResult :=
  match o with
  | .ok h t s shot => some ⟨d.name, d.width, d.height, deviceIssues d h t s, some shot⟩
  | _ => none

/-- Whether a device outcome leaves its freshly-opened browsing context
unclosed. -/
def isOpenedFail : DeviceOutcome → Bool
  | .openedFail => true
  | _ => false

/-- The Evidence Recorder's invariant: every stored `ProblemArea` has a
non-empty issues list. -/
def areasWellFormed (areas : List ProblemArea) : Prop :=
  ∀ pa ∈ areas, pa.issues ≠ []

/-- Spec-side recommendation block (1): up to 3 high-severity failing
Findings itemized verbatim, under a count header. -/
def specHighBlock (st : SessionState) : List String :=
  let high := st.results.filter (fun r => r.severity = .high ∧ r.status = .fail)
  if high.length > 0 then
    ("🔴 HIGH PRIORITY: Found " ++ toString high.length ++
      " critical issues that need immediate attention") ::
    (high.take 3).map (fun issue =>
      "   • " ++ issue.category ++ " - " ++ issue.test ++ ": " ++ issue.details)
  else []

/-- Spec-side recommendation block (2): a performance recommendation if
load time exceeds 3000 ms. -/
def specPerfBlock (st : SessionState) : List String :=
  if st.performanceMetrics.loadTime > 3000 then
    ["⚡ Optimize page load time by compressing images, minifying CSS/JS, and enabling caching"]
  else []

/-- Spec-side recommendation block (3): an LCP recommendation if LCP
exceeds 2500 ms. -/
def specLcpBlock (st : SessionState) : List String :=
  if st.performanceMetrics.largestContentfulPaint > 2500 then
    ["⚡ Improve Largest Contentful Paint (LCP) by optimizing above-the-fold content"]
  else []

/-- Spec-side recommendation block (3b): a targeted LCP-resource
recommendation whenever the captured LCP entry carries a (non-empty)
resource URL — independent of the 2500 ms check. -/
def specLcpUrlBlock (st : SessionState) : List String :=
  match st.performanceMetrics.largestContentfulPaintEntry with
  | none => []
  | some e =>
    match e.url with
    | none => []
    | some u =>
      if u = "" then []
      else
        ["⚡ Consider optimizing LCP resource: " ++ u ++
         " — compress/convert (AVIF/WebP), resize to display size, or preload if it is the hero image"]

/-- Spec-side recommendation block (4): an accessibility recommendation if
a failing Image Alt Text finding is present. -/
def specAltBlock (st : SessionState) : List String :=
  match st.results.find? (fun r => r.test = "Image Alt Text" ∧ r.status = .fail) with
  | some _ => ["♿ Add descriptive alt text to all images for better accessibility"]
  | none => []

/-- Spec-side recommendation block (5): a responsive-design recommendation
naming the devices with issues. -/
def specResponsiveBlock (st : SessionState) : List String :=
  let responsiveIssues := st.responsiveResults.filter (fun r => r.issues.length > 0)
  if responsiveIssues.length > 0 then
    ["📱 Fix responsive design issues on " ++
      String.intercalate ", " (responsiveIssues.map (fun r => r.device))]
  else []

/-- Spec-side recommendation block (5b): a count-based recommendation for
critical/serious accessibility issues when any exist. -/
def specA11yBlock (st : SessionState) : List String :=
  let critical := st.accessibilityIssues.filter
    (fun i => i.severity = .critical ∨ i.severity = .serious)
  if critical.length > 0 then
    ["♿ Address " ++ toString critical.length ++
      " critical accessibility issues for WCAG compliance"]
  else []

/-- Spec-side recommendation block (6): a count-based recommendation if
medium-severity failures exceed 5. -/
def specMediumBlock (st : SessionState) : List String :=
  let med := st.results.filter (fun r => r.severity = .medium ∧ r.status = .fail)
  if med.length > 5 then
    ["🟡 MEDIUM PRIORITY: " ++ toString med.length ++
      " issues that should be addressed soon"]
  else []

/-- The recommendation list as the amended spec describes it: blocks
(1), (2), (3), (3b), (4), (5), (5b), (6) in priority order, then the
fixed general suggestions. -/
def recommendationsSpec (st : SessionState) : List String :=
  List.flatten
    [specHighBlock st, specPerfBlock st, specLcpBlock st, specLcpUrlBlock st,
     specAltBlock st, specResponsiveBlock st, specA11yBlock st,
     specMediumBlock st, generalSuggestions]

-- ========================================
-- Concrete environments for witnesses and counterexamples
-- ========================================

/-- A recorder environment whose selector resolves to one element with a
bounding box and a stored screenshot. -/
def okRecordEnv : RecordEnv :=
  ⟨.ok 1, .ok (some ⟨10, 20, 300, 200⟩), some "element.png"⟩

/-- A recorder environment whose selector matches one element whose
bounding box is `null` (e.g. a detached or hidden element). -/
def noBoxRecordEnv : RecordEnv := ⟨.ok 1, .ok none, none⟩

/-- A sample issue for witness instantiations. -/
def sampleIssue : ElementIssue :=
  ⟨"img.hero", 10, 20, 300, 200, "Image missing alt text", .high,
    "Add alt text", none⟩

/-- A sample finding for witness instantiations. -/
def sampleResult : TestResult :=
  mkResult "Performance" "Page Load Time" .pass 10
    "Page loaded in 1200ms. Recommended: < 3000ms" .medium none none

/-- A benign performance environment (all evaluations succeed). -/
def benignPerfEnv : PerfEnv := ⟨1200, .ok (10, 20, 30), .ok (5, 100000), (1000, none)⟩

/-- The performance environment whose first `page.evaluate` rejects. -/
def throwingPerfEnv : PerfEnv := ⟨1200, .error (), .ok (5, 100000), (1000, none)⟩

/-- A benign full-run environment: every page interaction succeeds. -/
def benignRunEnv : RunEnv :=
  ⟨true, true, benignPerfEnv,
   ⟨.ok 1, .ok ⟨1, 1, 0, 0, 0, 0⟩, .ok ⟨2, 0, []⟩, []⟩,
   ⟨.ok [], []⟩,
   ⟨.ok 1, .ok true, .ok 3, .ok true⟩,
   ⟨.ok ⟨16, 16, 1.5, 10⟩, .ok 0⟩,
   ⟨.ok [], 800, []⟩,
   ⟨.ok ⟨0, 0, 0, 0, 0⟩⟩,
   ⟨.ok ⟨3, 10, 2, 0⟩⟩,
   ⟨.ok ⟨10, 0, 0⟩⟩,
   ⟨.ok ⟨true, "meta", true, true, "Title"⟩⟩,
   (fun _ => .ok false 0 0 "shot.png"),
   ⟨true, false, .ok [], .ok 5, .ok true, .ok true, .ok ⟨1, 1, 1, 1, 0⟩⟩⟩

/-- The full-run environment in which the performance probe's first
`page.evaluate` rejects (a probe-level exception). -/
def throwingRunEnv : RunEnv := { benignRunEnv with perf := throwingPerfEnv }

/-- An accessibility environment in which neither the CDN nor the local
package load attempt leaves `window.axe` defined. -/
def noAxeEnv : A11yEnv :=
  ⟨false, false, .ok [], .ok 5, .ok true, .ok true, .ok ⟨1, 1, 1, 1, 0⟩⟩

/-- The degraded finding `testAccessibility` appends when the audit
engine cannot be loaded. -/
def axeMissingFinding : TestResult :=
  mkResult "Accessibility" "axe-core" .warning 5
    "axe-core could not be loaded; accessibility automated checks were limited"
    .low none none

/-- Session state holding one critical accessibility issue and nothing
else (for the C8 counterexample). -/
def oneCriticalA11yState : SessionState :=
  { initialState with accessibilityIssues :=
      [⟨"color-contrast", .critical, "p.low", "Low contrast text", "wcag2aa"⟩] }

/-- Session state whose captured LCP entry names a resource URL while the
LCP value itself is far below 2500 ms (for the C8 counterexample). -/
def lcpUrlOnlyState : SessionState :=
  { initialState with performanceMetrics :=
      { initialMetrics with
          largestContentfulPaint := 800,
          largestContentfulPaintEntry :=
            some ⟨100, 800, 0, some 1000, some "https://site/hero.png", none⟩ } }

/-- The C9 fixture: the visual-hierarchy environment of a page with one
`h1`, two images of which one is missing alt text. -/
def c9VHEnv : VHEnv :=
  ⟨.ok 1, .ok ⟨1, 0, 0, 0, 0, 0⟩, .ok ⟨2, 1, ["img:nth-of-type(0)"]⟩,
   [⟨.ok 1, .ok (some ⟨10, 20, 300, 200⟩), some "img-shot.png"⟩]⟩

/-- The C9 fixture: the single "Get Started" button sized 60×30 px. -/
def c9Buttons : List BtnInfo :=
  [⟨"Get Started", "", "cta-primary", 60, 30, 100, false⟩]

/-- The C9 fixture: the CTA environment sampling that button. -/
def c9CTAEnv : CTAEnv :=
  ⟨.ok c9Buttons, 844, [⟨.ok 1, .ok (some ⟨0, 100, 60, 30⟩), some "cta-shot.png"⟩]⟩

/-- Extract the state from a probe that succeeded (defaulting to the
input state; used only to state closed concrete-run theorems). -/
def probeStateD (r : Except Unit SessionState) (st : SessionState) : SessionState :=
  r.toOption.getD st

-- ========================================
-- Theorems
-- ========================================

/-- Helper: a list of rationals that are each in `[0, 10]` has sum in
`[0, 10 * length]`. -/
theorem sum_bounds_of_mem_bounds (l : List ℚ)
    (h : ∀ x ∈ l, 0 ≤ x ∧ x ≤ 10) :
    0 ≤ l.sum ∧ l.sum ≤ 10 * (l.length : ℚ) := by
  induction l with
  | nil => simp
  | cons a t ih =>
    have ha := h a (by simp)
    have ht := ih (fun x hx => h x (by simp [hx]))
    simp only [List.sum_cons, List.length_cons]
    constructor
    · linarith [ht.1, ha.1]
    · push_cast
      linarith [ht.2, ha.2]

/-- C1: for a non-empty findings list with every score in `[0, 10]`, the
aggregator's `overallScore` equals `round(100 × sum / (10 × count))` and
lies in `[0, 100]`. -/
theorem C1_overallScore_formula_and_bounds (results : List TestResult)
    (hne : results ≠ [])
    (hb : ∀ r ∈ results, 0 ≤ r.score ∧ r.score ≤ 10) :
    overallScore results =
      some (jsRound (100 * (results.map (fun r => r.score)).sum /
        (10 * (results.length : ℚ)))) ∧
    ∃ v : ℤ, overallScore results = some v ∧ 0 ≤ v ∧ v ≤ 100 := by
  have hlen : results.length ≠ 0 := fun h => hne (List.eq_nil_of_length_eq_zero h)
  have hlenQ : (0 : ℚ) < (results.length : ℚ) := by
    exact_mod_cast Nat.pos_of_ne_zero hlen
  set S : ℚ := (results.map (fun r => r.score)).sum with hS
  have hSb : 0 ≤ S ∧ S ≤ 10 * ((results.map (fun r => r.score)).length : ℚ) := by
    refine sum_bounds_of_mem_bounds _ ?_
    intro x hx
    rcases List.mem_map.mp hx with ⟨r, hr, rfl⟩
    exact hb r hr
  rw [List.length_map] at hSb
  have hform : S / ((results.length : ℚ) * 10) * 100 =
      100 * S / (10 * (results.length : ℚ)) := by ring
  have hval : overallScore results =
      some (jsRound (100 * S / (10 * (results.length : ℚ)))) := by
    simp only [overallScore, if_neg hlen, ← hS, hform]
  refine ⟨hval, jsRound (100 * S / (10 * (results.length : ℚ))), hval, ?_, ?_⟩
  · have hq : 0 ≤ 100 * S / (10 * (results.length : ℚ)) :=
      div_nonneg (by nlinarith [hSb.1]) (by positivity)
    simp only [jsRound]
    exact Int.le_floor.mpr (by push_cast; linarith)
  · have hq : 100 * S / (10 * (results.length : ℚ)) ≤ 100 := by
      rw [div_le_iff₀ (by positivity)]
      nlinarith [hSb.2]
    simp only [jsRound]
    have : ⌊100 * S / (10 * (results.length : ℚ)) + 1 / 2⌋ < 101 :=
      Int.floor_lt.mpr (by push_cast; linarith)
    omega

/-- Witness for C1 at the one-element list holding a score-10 finding. -/
theorem C1_witness :
    overallScore [sampleResult] =
      some (jsRound (100 * (([sampleResult] : List TestResult).map (fun r => r.score)).sum /
        (10 * ((([sampleResult] : List TestResult).length : ℚ))))) ∧
    ∃ v : ℤ, overallScore [sampleResult] = some v ∧ 0 ≤ v ∧ v ≤ 100 :=
  C1_overallScore_formula_and_bounds [sampleResult] (by decide) (by decide)

/-- Counterexample for C1's empty case: on an empty findings list the JS
computation is `Math.round((0/0) * 100) = NaN` (modelled `none`), not the
claimed `0`. -/
theorem C1_counterexample :
    overallScore ([] : List TestResult) = none ∧
    overallScore ([] : List TestResult) ≠ some 0 := by decide

/-- C3: the Page Load Time classification of `testPerformance` is
strictly threshold-based — `< 3000` pass/10, `< 5000` warning/7, `< 8000`
score 4, else score 1 — with the stated boundary behavior at 2999, 3000,
4999 and 5000 ms (3000 ms is warning, not pass). -/
theorem C3_pageLoadTime_thresholds (t : ℕ) :
    (t < 3000 → loadTimeStatus t = Status.pass ∧ loadTimeScore t = 10) ∧
    (3000 ≤ t → t < 5000 → loadTimeStatus t = Status.warning ∧ loadTimeScore t = 7) ∧
    (5000 ≤ t → t < 8000 → loadTimeStatus t = Status.fail ∧ loadTimeScore t = 4) ∧
    (8000 ≤ t → loadTimeStatus t = Status.fail ∧ loadTimeScore t = 1) ∧
    (loadTimeStatus 3000 = Status.warning ∧ loadTimeStatus 3000 ≠ Status.pass) ∧
    (loadTimeStatus 2999 = Status.pass ∧ loadTimeScore 2999 = 10) ∧
    loadTimeScore 3000 = 7 ∧
    (loadTimeStatus 4999 = Status.warning ∧ loadTimeScore 4999 = 7) ∧
    (loadTimeStatus 5000 = Status.fail ∧ loadTimeScore 5000 = 4) := by
  refine ⟨fun h => ?_, fun h1 h2 => ?_, fun h1 h2 => ?_, fun h1 => ?_,
    by decide, by decide, by decide, by decide, by decide⟩
  · simp [loadTimeStatus, loadTimeScore, h]
  · have h3 : ¬ t < 3000 := by omega
    simp [loadTimeStatus, loadTimeScore, h3, h2]
  · have h3 : ¬ t < 3000 := by omega
    have h5 : ¬ t < 5000 := by omega
    simp [loadTimeStatus, loadTimeScore, h3, h5, h2]
  · have h3 : ¬ t < 3000 := by omega
    have h5 : ¬ t < 5000 := by omega
    have h8 : ¬ t < 8000 := by omega
    simp [loadTimeStatus, loadTimeScore, h3, h5, h8]

/-- Witness for C3 at the 3000 ms boundary. -/
theorem C3_witness :
    loadTimeStatus 3000 = Status.warning ∧ loadTimeScore 3000 = 7 :=
  (C3_pageLoadTime_thresholds 3000).2.1 (by decide) (by decide)

/-- Helper: `storeProblemArea` with no matching `(category, test)` area
appends a fresh area holding exactly the one issue. -/
theorem storeProblemArea_of_no_match (c t : String) (i : ElementIssue) :
    ∀ areas : List ProblemArea,
      (∀ pa ∈ areas, ¬(pa.category = c ∧ pa.test = t)) →
      storeProblemArea c t i areas = areas ++ [⟨c, t, [i], none⟩]
  | [], _ => rfl
  | pa :: rest, h => by
    have hpa := h pa (by simp)
    simp only [storeProblemArea, if_neg hpa, List.cons_append]
    rw [storeProblemArea_of_no_match c t i rest (fun x hx => h x (by simp [hx]))]

/-- Helper: `storeProblemArea` with a matching area keeps the number of
areas unchanged. -/
theorem storeProblemArea_length_of_match (c t : String) (i : ElementIssue) :
    ∀ areas : List ProblemArea,
      (∃ pa ∈ areas, pa.category = c ∧ pa.test = t) →
      (storeProblemArea c t i areas).length = areas.length
  | [], h => by simp at h
  | pa :: rest, h => by
    by_cases hpa : pa.category = c ∧ pa.test = t
    · simp [storeProblemArea, if_pos hpa]
    · have hrest : ∃ x ∈ rest, x.category = c ∧ x.test = t := by
        rcases h with ⟨x, hx, hxct⟩
        rcases List.mem_cons.mp hx with rfl | hx
        · exact absurd hxct hpa
        · exact ⟨x, hx, hxct⟩
      simp only [storeProblemArea, if_neg hpa, List.length_cons]
      rw [storeProblemArea_length_of_match c t i rest hrest]

/-- Helper: `storeProblemArea` preserves the non-empty-issues invariant. -/
theorem storeProblemArea_wellFormed (c t : String) (i : ElementIssue) :
    ∀ areas : List ProblemArea, areasWellFormed areas →
      areasWellFormed (storeProblemArea c t i areas)
  | [], _ => by
    intro pa hpa
    simp only [storeProblemArea, List.mem_singleton] at hpa
    subst hpa
    simp
  | pa :: rest, h => by
    intro x hx
    by_cases hpa : pa.category = c ∧ pa.test = t
    · simp only [storeProblemArea, if_pos hpa, List.mem_cons] at hx
      rcases hx with rfl | hx
      · simp
      · exact h x (by simp [hx])
    · simp only [storeProblemArea, if_neg hpa, List.mem_cons] at hx
      rcases hx with rfl | hx
      · exact h x (by simp)
      · exact storeProblemArea_wellFormed c t i rest
          (fun y hy => h y (by simp [hy])) x hx

/-- C10: every stored ProblemArea has a non-empty issues list; this is
preserved by `storeProblemArea` (which appends to the matching area or
creates a singleton one) and by `clearProblemAreas` (which empties the
whole collection). -/
theorem C10_problemAreas_invariant (c t : String) (issue : ElementIssue)
    (areas : List ProblemArea) :
    (areasWellFormed areas →
      areasWellFormed (storeProblemArea c t issue areas)) ∧
    ((∀ pa ∈ areas, ¬(pa.category = c ∧ pa.test = t)) →
      storeProblemArea c t issue areas = areas ++ [⟨c, t, [issue], none⟩]) ∧
    ((∃ pa ∈ areas, pa.category = c ∧ pa.test = t) →
      (storeProblemArea c t issue areas).length = areas.length) ∧
    clearProblemAreas areas = [] ∧
    areasWellFormed (clearProblemAreas areas) := by
  refine ⟨storeProblemArea_wellFormed c t issue areas,
    storeProblemArea_of_no_match c t issue areas,
    storeProblemArea_length_of_match c t issue areas, rfl, ?_⟩
  intro pa hpa
  simp [clearProblemAreas] at hpa

/-- Witness for C10 at an empty collection and a concrete issue. -/
theorem C10_witness :
    areasWellFormed (storeProblemArea "Visual Design" "Image Alt Text" sampleIssue []) ∧
    storeProblemArea "Visual Design" "Image Alt Text" sampleIssue [] =
      [] ++ [⟨"Visual Design", "Image Alt Text", [sampleIssue], none⟩] :=
  ⟨(C10_problemAreas_invariant "Visual Design" "Image Alt Text" sampleIssue []).1
      (by intro pa hpa; simp at hpa),
   (C10_problemAreas_invariant "Visual Design" "Image Alt Text" sampleIssue []).2.1
      (by intro pa hpa; simp at hpa)⟩

/-- Helper: a linearized channel is nonnegative. -/
theorem linearizeChannel_nonneg (c : ℕ) : 0 ≤ linearizeChannel c := by
  unfold linearizeChannel
  dsimp only
  split
  · positivity
  · exact Real.rpow_nonneg (by positivity) _

/-- Helper: the relative luminance is nonnegative. -/
theorem getLuminance_nonneg (r g b : ℕ) : 0 ≤ getLuminance r g b := by
  have h1 := linearizeChannel_nonneg r
  have h2 := linearizeChannel_nonneg g
  have h3 := linearizeChannel_nonneg b
  unfold getLuminance
  nlinarith

/-- Helper: channel value 0 linearizes to 0 (low branch). -/
theorem linearizeChannel_zero : linearizeChannel 0 = 0 := by
  unfold linearizeChannel
  norm_num

/-- Helper: channel value 255 linearizes to 1 (power branch at base 1). -/
theorem linearizeChannel_255 : linearizeChannel 255 = 1 := by
  unfold linearizeChannel
  rw [if_neg (by norm_num)]
  have h : (((255 : ℕ) : ℝ) / 255 + 0.055) / 1.055 = 1 := by norm_num
  rw [h, Real.one_rpow]

/-- Helper: black has luminance 0. -/
theorem getLuminance_black : getLuminance 0 0 0 = 0 := by
  simp [getLuminance, linearizeChannel_zero]

/-- Helper: white has luminance exactly 1. -/
theorem getLuminance_white : getLuminance 255 255 255 = 1 := by
  rw [getLuminance, linearizeChannel_255]
  norm_num

/-- Helper: black on white has contrast ratio exactly 21. -/
theorem getContrast_black_white : getContrast (0, 0, 0) (255, 255, 255) = 21 := by
  unfold getContrast
  dsimp only
  rw [getLuminance_black, getLuminance_white,
    max_eq_right (by norm_num : (0 : ℝ) ≤ 1),
    min_eq_left (by norm_num : (0 : ℝ) ≤ 1)]
  norm_num

/-- Helper: identical colors have contrast ratio exactly 1. -/
theorem getContrast_self (r g b : ℕ) : getContrast (r, g, b) (r, g, b) = 1 := by
  unfold getContrast
  dsimp only
  rw [max_self, min_self]
  have h := getLuminance_nonneg r g b
  exact div_self (by norm_num; linarith)

/-- C4: the contrast probe computes the WCAG formula (sRGB linearization,
weighted luminance, 0.05-offset ratio): black on white gives exactly 21
and is not flagged at the 4.5 threshold, identical colors give exactly 1
and mid-gray on mid-gray is flagged, and the computed ratio coincides
with the spec's formula on every input pair. -/
theorem C4_contrast_wcag_formula :
    getContrast (0, 0, 0) (255, 255, 255) = 21 ∧
    ¬ contrastFlagged (getContrast (0, 0, 0) (255, 255, 255)) ∧
    (∀ r g b : ℕ, getContrast (r, g, b) (r, g, b) = 1) ∧
    contrastFlagged (getContrast (128, 128, 128) (128, 128, 128)) ∧
    (∀ fg bg : ℕ × ℕ × ℕ, getContrast fg bg = wcagContrastRatio fg bg) := by
  refine ⟨getContrast_black_white, ?_, getContrast_self, ?_, ?_⟩
  · rw [contrastFlagged, getContrast_black_white]
    norm_num
  · rw [contrastFlagged, getContrast_self]
    norm_num
  · intro fg bg
    rfl

/-- C5 (amended): `recordProblemArea` returns null and stores nothing
exactly when the selector count throws, is zero, or the bounding box
throws or is null; when the count is positive and a box exists it returns
the created issue and appends it via `storeProblemArea`. -/
theorem C5_recordProblemArea_behavior (env : RecordEnv)
    (c t sel d : String) (sev : Severity) (rec : String) (shot : Bool)
    (areas : List ProblemArea) :
    (recordProblemArea env c t sel d sev rec shot areas = (none, areas) ↔
      env.countResult = .error () ∨ env.countResult = .ok 0 ∨
      env.boxResult = .error () ∨ env.boxResult = .ok none) ∧
    (∀ n box, env.countResult = .ok n → n ≠ 0 →
      env.boxResult = .ok (some box) →
      recordProblemArea env c t sel d sev rec shot areas =
        (some ⟨sel, jsRound box.x, jsRound box.y, jsRound box.width,
          jsRound box.height, d, sev, rec,
          if shot then env.shotResult else none⟩,
         storeProblemArea c t
          ⟨sel, jsRound box.x, jsRound box.y, jsRound box.width,
            jsRound box.height, d, sev, rec,
            if shot then env.shotResult else none⟩ areas)) := by
  obtain ⟨cr, br, sr⟩ := env
  constructor
  · match cr, br with
    | .error e, _ => cases e; simp [recordProblemArea]
    | .ok 0, _ => simp [recordProblemArea]
    | .ok (n + 1), .error e => cases e; simp [recordProblemArea]
    | .ok (n + 1), .ok none => simp [recordProblemArea]
    | .ok (n + 1), .ok (some box) => simp [recordProblemArea]
  · intro n box hn hne hbox
    simp only at hn hbox
    subst hn
    subst hbox
    simp [recordProblemArea, if_neg hne]

/-- Counterexample for C5: a selector matching one element whose bounding
box is null also yields null with nothing stored, so "null exactly when
zero matches" fails. -/
theorem C5_counterexample :
    recordProblemArea noBoxRecordEnv "Visual Design" "Image Alt Text"
      "img.detached" "Image missing alt text" Severity.high "Add alt text"
      true [] = (none, []) ∧
    noBoxRecordEnv.countResult = Except.ok 1 :=
  ⟨rfl, rfl⟩

/-- Witness for C5's success case at a concrete environment. -/
theorem C5_witness :
    recordProblemArea okRecordEnv "Visual Design" "Image Alt Text"
      "img.hero" "Image missing alt text" Severity.high "Add alt text"
      true [] =
      (some ⟨"img.hero", jsRound (10 : ℚ), jsRound (20 : ℚ), jsRound (300 : ℚ),
        jsRound (200 : ℚ), "Image missing alt text", Severity.high, "Add alt text",
        if true then okRecordEnv.shotResult else none⟩,
       storeProblemArea "Visual Design" "Image Alt Text"
        ⟨"img.hero", jsRound (10 : ℚ), jsRound (20 : ℚ), jsRound (300 : ℚ),
          jsRound (200 : ℚ), "Image missing alt text", Severity.high, "Add alt text",
          if true then okRecordEnv.shotResult else none⟩ []) :=
  (C5_recordProblemArea_behavior okRecordEnv "Visual Design" "Image Alt Text"
    "img.hero" "Image missing alt text" Severity.high "Add alt text"
    true []).2 1 ⟨10, 20, 300, 200⟩ rfl (by decide) rfl

/-- Helper: the effect of one device iteration of `testResponsive`. -/
theorem testResponsiveDevice_effect (d : Device) (o : DeviceOutcome)
    (st : SessionState) :
    (testResponsiveDevice d o st).results = st.results ++ [deviceFinding d o] ∧
    (testResponsiveDevice d o st).responsiveResults =
      st.responsiveResults ++ (deviceResponsiveEntry d o).toList ∧
    (testResponsiveDevice d o st).leakedContexts =
      st.leakedContexts + (if isOpenedFail o then 1 else 0) := by
  cases o <;>
    simp [testResponsiveDevice, deviceFinding, deviceResponsiveEntry,
      isOpenedFail, addResult]

/-- C6 (amended): a per-device failure in `testResponsive` is swallowed
as a single degraded finding and does not prevent the other devices'
entries from appearing, but a context opened before the failure is never
closed: the probe appends one finding per device, one
`ResponsiveTestResult` per successful device, and leaks exactly one
context per device that failed after its context was opened. -/
theorem C6_responsive_isolation_and_leaks (devices : List Device)
    (outcome : Device → DeviceOutcome) (st : SessionState) :
    (testResponsive devices outcome st).results =
      st.results ++ devices.map (fun d => deviceFinding d (outcome d)) ∧
    (testResponsive devices outcome st).responsiveResults =
      st.responsiveResults ++
        devices.filterMap (fun d => deviceResponsiveEntry d (outcome d)) ∧
    (testResponsive devices outcome st).leakedContexts =
      st.leakedContexts +
        (devices.filter (fun d => isOpenedFail (outcome d))).length := by
  induction devices generalizing st with
  | nil => simp [testResponsive]
  | cons d ds ih =>
    have hstep : testResponsive (d :: ds) outcome st =
        testResponsive ds outcome (testResponsiveDevice d (outcome d) st) := by
      simp [testResponsive]
    obtain ⟨hr, hq, hl⟩ := testResponsiveDevice_effect d (outcome d) st
    obtain ⟨ihr, ihq, ihl⟩ := ih (testResponsiveDevice d (outcome d) st)
    rw [hstep]
    refine ⟨?_, ?_, ?_⟩
    · rw [ihr, hr]
      simp
    · rw [ihq, hq]
      cases h : outcome d <;>
        simp [deviceResponsiveEntry, List.filterMap_cons, h]
    · rw [ihl, hl]
      by_cases h : isOpenedFail (outcome d) = true <;>
        simp [h, List.filter_cons]
      omega

/-- Counterexample for C6's cleanup part: a device whose navigation fails
after its context was opened leaves that context unclosed (one leaked
context), while still producing exactly one degraded warning finding. -/
theorem C6_counterexample :
    (testResponsive [⟨"Mobile iPhone 12", 390, 844⟩]
      (fun _ => DeviceOutcome.openedFail) initialState).leakedContexts = 1 ∧
    (testResponsive [⟨"Mobile iPhone 12", 390, 844⟩]
      (fun _ => DeviceOutcome.openedFail) initialState).results =
      [mkResult "Responsive Design" "Mobile iPhone 12" Status.warning 5
        "Could not fully test responsive design for this device"
        Severity.low none none] := by decide

/-- Helper: `addResult` keeps existing findings. -/
theorem mem_results_addResult (st : SessionState) (x r : TestResult)
    (h : r ∈ st.results) : r ∈ (addResult st x).results := by
  simp only [addResult, List.mem_append]
  exact Or.inl h

/-- Helper: the keyboard/skip-link/language/landmark/overall tail of
`testAccessibility` only appends findings, so membership is preserved. -/
theorem mem_results_a11ySections (env : A11yEnv) (st : SessionState)
    (r : TestResult) (h : r ∈ st.results) :
    r ∈ (a11ySections env st).results := by
  obtain ⟨c, lo, ar, kb, sk, la, lm⟩ := env
  cases kb <;> cases sk <;> cases la <;> cases lm <;>
    simp [a11ySections, addResult, h]

/-- C7 (amended): the accessibility probe tries the remote CDN first and
the bundled local asset second (not the other way around); when neither
loads, the probe degrades to the warning finding documenting the
limitation instead of failing the run. -/
theorem C7_axe_load_order_and_degrade (env : A11yEnv) (st : SessionState) :
    (axeLoadAttempts env.cdnLoads).head? = some AxeSource.remote ∧
    (env.cdnLoads = true →
      axeLoadedFrom env.cdnLoads env.localLoads = some AxeSource.remote) ∧
    (env.cdnLoads = false → env.localLoads = true →
      axeLoadedFrom env.cdnLoads env.localLoads = some AxeSource.localAsset) ∧
    (env.cdnLoads = false → env.localLoads = false →
      axeLoadedFrom env.cdnLoads env.localLoads = none ∧
      axeMissingFinding ∈ (testAccessibility env st).results) := by
  refine ⟨?_, ?_, ?_, ?_⟩
  · cases h : env.cdnLoads <;> simp [axeLoadAttempts]
  · intro h
    simp [axeLoadedFrom, h]
  · intro h1 h2
    simp [axeLoadedFrom, h1, h2]
  · intro h1 h2
    refine ⟨by simp [axeLoadedFrom, h1, h2], ?_⟩
    have hload : (env.cdnLoads || env.localLoads) = false := by
      simp [h1, h2]
    rw [testAccessibility, hload]
    simp only [Bool.false_eq_true, if_false]
    exact mem_results_a11ySections env _ axeMissingFinding
      (by simp [addResult, axeMissingFinding])

/-- Counterexample for C7: when both sources are available the engine is
loaded from the remote CDN, not the local asset the claim puts first, and
the attempt order starts with the remote URL. -/
theorem C7_counterexample :
    axeLoadedFrom true true = some AxeSource.remote ∧
    axeLoadedFrom true true ≠ some AxeSource.localAsset ∧
    axeLoadAttempts false ≠ [AxeSource.localAsset, AxeSource.remote] := by decide

/-- Witness for C7's degraded path: with neither source loading, the
warning finding is produced. -/
theorem C7_witness :
    axeLoadedFrom noAxeEnv.cdnLoads noAxeEnv.localLoads = none ∧
    axeMissingFinding ∈ (testAccessibility noAxeEnv initialState).results :=
  (C7_axe_load_order_and_degrade noAxeEnv initialState).2.2.2 rfl rfl

/-- C8 (amended): `generateRecommendations` builds exactly the prioritized
blocks (1) up-to-3 itemized high-severity failures, (2) load time over
3000 ms, (3) LCP over 2500 ms, (3b) the LCP resource URL whenever known
(independent of the 2500 ms check), (4) missing alt text, (5) responsive
devices with issues, (5b) outstanding critical/serious accessibility
issues, (6) more than 5 medium-severity failures, then (7) the fixed
general suggestions. -/
theorem C8_recommendations_structure (st : SessionState) :
    generateRecommendations st = recommendationsSpec st := by
  simp only [generateRecommendations, recommendationsSpec, specHighBlock,
    specPerfBlock, specLcpBlock, specLcpUrlBlock, specAltBlock,
    specResponsiveBlock, specA11yBlock, specMediumBlock,
    List.flatten, List.append_assoc, List.append_nil]

/-- Counterexample for C8: with a critical accessibility issue on file
(and no other trigger), the code emits a recommendation absent from the
claim's list; and a known LCP resource URL triggers its recommendation
even when LCP is far below 2500 ms. -/
theorem C8_counterexample :
    generateRecommendations oneCriticalA11yState =
      "♿ Address 1 critical accessibility issues for WCAG compliance" ::
        generalSuggestions ∧
    oneCriticalA11yState.results = [] ∧
    oneCriticalA11yState.performanceMetrics.loadTime ≤ 3000 ∧
    oneCriticalA11yState.performanceMetrics.largestContentfulPaint ≤ 2500 ∧
    oneCriticalA11yState.responsiveResults = [] ∧
    generateRecommendations lcpUrlOnlyState =
      ("⚡ Consider optimizing LCP resource: https://site/hero.png — compress/convert (AVIF/WebP), resize to display size, or preload if it is the hero image") ::
        generalSuggestions ∧
    lcpUrlOnlyState.performanceMetrics.largestContentfulPaint ≤ 2500 := by decide

/-- C9: on the fixture page (one h1, two images with one missing alt, a
"Get Started" button of 60×30 px) the run produces an H1 finding
pass/10, an Image Alt Text finding fail/8 (= max(0, 10 − 2·missing)),
and a CTA finding flagging exactly one too-small button. -/
theorem C9_end_to_end_scenario :
    (probeStateD (testVisualHierarchy c9VHEnv initialState) initialState).results.filter
      (fun r => r.test = "H1 Heading") =
      [mkResult "Visual Design" "H1 Heading" Status.pass 10
        "Found 1 H1 tag(s). Recommended: exactly 1" Severity.medium none none] ∧
    (probeStateD (testVisualHierarchy c9VHEnv initialState) initialState).results.filter
      (fun r => r.test = "Image Alt Text") =
      [mkResult "Visual Design" "Image Alt Text" Status.fail (altScore 1)
        "1 out of 2 images missing alt text" Severity.high none none] ∧
    altScore 1 = 8 ∧
    ((c9Buttons.filter isCTA).filter isSmallCTA).length = 1 ∧
    (probeStateD (testCTAButtons c9CTAEnv initialState) initialState).results.filter
      (fun r => r.test = "Call-to-Action Buttons") =
      [mkResult "Interactive Elements" "Call-to-Action Buttons" Status.pass 10
        "Found 1 CTA buttons, 1 are too small, 0 not visible above fold"
        Severity.medium none
        (some ["Increase CTA button size to at least 80x40px for better touch targets",
               "Ensure buttons are easily clickable on mobile devices (minimum 44x44px recommended)",
               "Add proper aria-label attributes to all CTA buttons for accessibility"])] := by
  have halt : altScore 1 = 8 := by
    rw [altScore]
    norm_num [jsMax]
  exact ⟨by decide, by rfl, halt, by decide, by decide⟩

/-- C2 (amended): `runAllTests` has no per-probe catch — a probe whose
page evaluation rejects makes the whole run rethrow to the caller (no
Report is produced), with `cleanup()` still running via the `finally`
block. -/
theorem C2_probe_exception_propagates (env : RunEnv) (st : SessionState)
    (hLaunch : env.launchOk = true) (hNav : env.navOk = true)
    (hThrow : env.perf.metricsEval = Except.error ()) :
    runAllTests env st = (RunOutcome.raised, true) := by
  simp [runAllTests, hLaunch, hNav, probeSequence, runProbes,
    testPerformance, hThrow]

/-- Counterexample for C2: a concrete run whose performance probe throws
ends in `raised` — the exception reaches the caller instead of being
converted into a degraded finding. -/
theorem C2_counterexample :
    runAllTests throwingRunEnv initialState = (RunOutcome.raised, true) := rfl

/-- Witness for C2's amended statement at a different concrete state. -/
theorem C2_witness :
    runAllTests throwingRunEnv (addResult initialState sampleResult) =
      (RunOutcome.raised, true) :=
  C2_probe_exception_propagates throwingRunEnv
    (addResult initialState sampleResult) rfl rfl rfl

end UXUI
